import Mathlib

/-! GiCoKu: the cluster health report of `main.go`.

A shallow embedding of the four report functions of `main.go` and of the part of
`main` that runs them (lines 34-46), followed by the properties of the report.

Modelling choices, all taken from the source:

* The program only reads a handful of fields of the Kubernetes objects, so each object is
  a record of exactly those fields (`node.Name`, `node.Status.Conditions`, `condition.Type`,
  `condition.Status`, `pod.Name`, `pod.Status.ContainerStatuses`, `containerStatus.Ready`,
  `containerStatus.RestartCount`, `e.FirstTimestamp`, `e.Message`).
* Every `fmt.Printf` / `fmt.Println` call appends one `Line` to the standard output of the
  process; `Line.render` gives the text that the format string produces.
* A `clientset...List(...)` call is a request to the cluster. The answer of the cluster may
  change from one request to the next, so a `Clientset` answers as a function of the number
  of requests the process has already issued. Every request is recorded in the process
  state.
* `panic(err)` and the run-time panic of an out-of-range slice expression stop the process;
  what was written to the standard output before the panic stays written. Every function
  therefore returns the process state together with an `Outcome`.
* `RestartCount` is an `int32`; it is embedded as an `Int` (every `int32` value is one, and
  `%d` prints it exactly). `notReadyCount` is a Go `int` that counts list entries, so it
  cannot wrap around and is embedded as a `Nat`.
* `main.go` declares `printPodsAreNotReady` twice (lines 98-111 and 125-139) with the same
  body; it is embedded once.
-/

namespace GiCoKu

/-! ## Data model -/

/-- An entry of `node.Status.Conditions`. -/
structure NodeCondition where
  type : String
  status : String
deriving DecidableEq, Repr

/-- An entry of `nodes.Items`. -/
structure Node where
  name : String
  conditions : List NodeCondition
deriving DecidableEq, Repr

/-- An entry of `pod.Status.ContainerStatuses`. -/
structure ContainerStatus where
  ready : Bool
  restartCount : Int
deriving DecidableEq, Repr

/-- An entry of `pods.Items`. -/
structure Pod where
  name : String
  containerStatuses : List ContainerStatus
deriving DecidableEq, Repr

/-- An entry of `events.Items`; `firstTimestamp` is the text `%s` prints for it. -/
structure Event where
  firstTimestamp : String
  message : String
deriving DecidableEq, Repr

/-- One call of `fmt.Printf` or `fmt.Println` of the program, with its arguments. -/
inductive Line where
  | nodeNotReady (name : String) (notReadyCount : Nat)
  | eventsHeader
  | event (firstTimestamp : String) (message : String)
  | podNotReady (name : String) (restartCount : Int)
  | podRestarted (name : String) (restartCount : Int)
deriving DecidableEq, Repr

/-- The text written by the print call, as produced by its format string. -/
def Line.render : Line → String
  | .nodeNotReady name notReadyCount =>
      "Node " ++ name ++ " is not ready: " ++ toString notReadyCount ++
        " conditions are not ready\n"
  | .eventsHeader => "Last five events:\n"
  | .event firstTimestamp message => firstTimestamp ++ " " ++ message ++ "\n"
  | .podNotReady name restartCount =>
      "Pod " ++ name ++ " is not ready and containerStatus.RestartCount is " ++
        toString restartCount ++ "\n"
  | .podRestarted name restartCount =>
      "Pod " ++ name ++ " was restarted " ++ toString restartCount ++ " times\n"

/-- The three resource kinds the program lists. -/
inductive Resource where
  | nodes
  | events
  | pods
deriving DecidableEq, Repr

/-- The cluster as seen through `*kubernetes.Clientset`: the answer to a list request,
as a function of the number of requests issued before it. An `error` is the `err` the
call returns. -/
structure Clientset where
  nodes : Nat → Except String (List Node)
  events : Nat → Except String (List Event)
  pods : Nat → Except String (List Pod)

/-- What stops the process: `panic(err)` or an out-of-range slice expression `s[low:]`. -/
inductive Panic where
  | err (e : String)
  | sliceBounds (low : Int)
deriving DecidableEq, Repr

/-- How a function call ends. -/
inductive Outcome where
  | returned
  | panicked (p : Panic)
deriving DecidableEq, Repr

/-- The observable state of the process: the lines written to the standard output and the
list requests issued, both oldest first. -/
structure Proc where
  stdout : List Line
  requests : List Resource
deriving DecidableEq, Repr

/-- The process before `main` runs any report. -/
def Proc.start : Proc := ⟨[], []⟩

/-- Write one line to the standard output. -/
def Proc.print (p : Proc) (l : Line) : Proc := ⟨p.stdout ++ [l], p.requests⟩

/-- Record a list request. -/
def Proc.request (p : Proc) (r : Resource) : Proc := ⟨p.stdout, p.requests ++ [r]⟩

/-! ## The program -/

/-- The inner loop of `printNotReadyNodes` (lines 55-62). -/
def countNotReady (conditions : List NodeCondition) : Nat :=
  conditions.foldl (fun notReadyCount condition =>
    if condition.type = "Ready" then
      if condition.status ≠ "True" then notReadyCount + 1 else notReadyCount
    else notReadyCount) 0

/-- Function `printNotReadyNodes` (lines 49-67). -/
def printNotReadyNodes (clientset : Clientset) (p : Proc) : Outcome × Proc :=
  match clientset.nodes p.requests.length with
  | .error err => (.panicked (.err err), p.request .nodes)
  | .ok items =>
    (.returned, items.foldl (fun q node =>
      let notReadyCount := countNotReady node.conditions
      if notReadyCount > 0 then q.print (.nodeNotReady node.name notReadyCount) else q)
      (p.request .nodes))

/-- The Go slice expression `items[low:]`: it panics unless `0 ≤ low ≤ len(items)`. -/
def sliceFrom {α : Type} (items : List α) (low : Int) : Except Panic (List α) :=
  if low < 0 ∨ low > items.length then .error (.sliceBounds low)
  else .ok (items.drop low.toNat)

/-- Function `printLastFewEvents` (lines 70-79). The header is printed before the range expression
`events.Items[len(events.Items)-5:]` is evaluated. -/
def printLastFewEvents (clientset : Clientset) (p : Proc) : Outcome × Proc :=
  match clientset.events p.requests.length with
  | .error err => (.panicked (.err err), p.request .events)
  | .ok items =>
    let q := (p.request .events).print .eventsHeader
    match sliceFrom items ((items.length : Int) - 5) with
    | .error pn => (.panicked pn, q)
    | .ok lastFive =>
      (.returned, lastFive.foldl (fun q e => q.print (.event e.firstTimestamp e.message)) q)

/-- Function `printRestatedMorethanOncePods` (lines 82-95). -/
def printRestatedMorethanOncePods (clientset : Clientset) (p : Proc) : Outcome × Proc :=
  match clientset.pods p.requests.length with
  | .error err => (.panicked (.err err), p.request .pods)
  | .ok items =>
    (.returned, items.foldl (fun q pod =>
      pod.containerStatuses.foldl (fun q containerStatus =>
        if containerStatus.restartCount > 0 then
          q.print (.podRestarted pod.name containerStatus.restartCount)
        else q) q)
      (p.request .pods))

/-- Function `printPodsAreNotReady` (lines 98-111, repeated at lines 125-139). -/
def printPodsAreNotReady (clientset : Clientset) (p : Proc) : Outcome × Proc :=
  match clientset.pods p.requests.length with
  | .error err => (.panicked (.err err), p.request .pods)
  | .ok items =>
    (.returned, items.foldl (fun q pod =>
      pod.containerStatuses.foldl (fun q containerStatus =>
        if containerStatus.ready != true then
          q.print (.podNotReady pod.name containerStatus.restartCount)
        else q) q)
      (p.request .pods))

/-- Run `f`, and `g` after it unless `f` panicked: the statement sequence `f(); g()`. -/
def andThen (f g : Proc → Outcome × Proc) (p : Proc) : Outcome × Proc :=
  match f p with
  | (.panicked pn, q) => (.panicked pn, q)
  | (.returned, q) => g q

/-- The reports of `main` (lines 34-46), run on a client set that was built without
error. -/
def main (clientset : Clientset) : Outcome × Proc :=
  andThen (printNotReadyNodes clientset)
    (andThen (printLastFewEvents clientset)
      (andThen (printPodsAreNotReady clientset)
        (printRestatedMorethanOncePods clientset))) Proc.start

/-! ## The rules of the report, as the specification words them -/

/-- The tally of NodeReadiness: conditions with type "Ready" and status other than
"True". -/
def readyTally (node : Node) : Nat :=
  node.conditions.countP (fun c => decide (c.type = "Ready" ∧ c.status ≠ "True"))

/-- NodeReadiness: if the tally is positive, one line carrying it; otherwise nothing. -/
def NodeReadiness (node : Node) : List Line :=
  if 0 < readyTally node then [.nodeNotReady node.name (readyTally node)] else []

/-- PodContainerReadiness: one line per container status whose ready flag is false. -/
def PodContainerReadiness (pod : Pod) : List Line :=
  pod.containerStatuses.flatMap (fun c =>
    if c.ready = false then [.podNotReady pod.name c.restartCount] else [])

/-- PodContainerRestarts: one line per container status with a positive restart count. -/
def PodContainerRestarts (pod : Pod) : List Line :=
  pod.containerStatuses.flatMap (fun c =>
    if 0 < c.restartCount then [.podRestarted pod.name c.restartCount] else [])

/-- The line of one event. -/
def eventLine (e : Event) : Line := .event e.firstTimestamp e.message

/-- RecentEvents: the header, then the last five entries of the list in list order. -/
def RecentEvents (events : List Event) : List Line :=
  .eventsHeader :: (events.drop (events.length - 5)).map eventLine

/-- The flattened input of the pod reports: every container status with its pod, pods in
list order and, within a pod, container statuses in sequence order. -/
def containerStatusesOf (pods : List Pod) : List (Pod × ContainerStatus) :=
  pods.flatMap (fun pod => pod.containerStatuses.map (fun c => (pod, c)))

/-- A pod with the ready flag of every container status cleared: two pods differ at most
in ready flags exactly when this makes them equal. -/
def Pod.eraseReady (pod : Pod) : Pod :=
  ⟨pod.name, pod.containerStatuses.map (fun c => ⟨false, c.restartCount⟩)⟩

/-! ## Concrete clusters -/

/-- Four nodes: not ready once, ready, without conditions, not ready twice. -/
def sampleNodes : List Node :=
  [⟨"node-a", [⟨"MemoryPressure", "False"⟩, ⟨"Ready", "False"⟩]⟩,
   ⟨"node-b", [⟨"Ready", "True"⟩]⟩,
   ⟨"node-c", []⟩,
   ⟨"node-d", [⟨"Ready", "Unknown"⟩, ⟨"DiskPressure", "True"⟩, ⟨"Ready", "False"⟩]⟩]

/-- Seven events. -/
def sampleEvents : List Event :=
  [⟨"t0", "m0"⟩, ⟨"t1", "m1"⟩, ⟨"t2", "m2"⟩, ⟨"t3", "m3"⟩, ⟨"t4", "m4"⟩, ⟨"t5", "m5"⟩,
   ⟨"t6", "m6"⟩]

/-- Two pods; the second container of `web` is not ready and was restarted twice, the
container of `db` is ready and was restarted once. -/
def samplePods : List Pod :=
  [⟨"web", [⟨true, 0⟩, ⟨false, 2⟩]⟩, ⟨"db", [⟨true, 1⟩]⟩]

/-- The pods of `samplePods` with every ready flag flipped. -/
def samplePodsFlipped : List Pod :=
  [⟨"web", [⟨false, 0⟩, ⟨true, 2⟩]⟩, ⟨"db", [⟨false, 1⟩]⟩]

/-- A cluster that answers every request with the same lists. -/
def sampleCluster : Clientset :=
  ⟨fun _ => .ok sampleNodes, fun _ => .ok sampleEvents, fun _ => .ok samplePods⟩

/-- The cluster of `sampleCluster` with the ready flags of the pods flipped. -/
def flippedCluster : Clientset :=
  ⟨fun _ => .ok sampleNodes, fun _ => .ok sampleEvents, fun _ => .ok samplePodsFlipped⟩

/-- A cluster with two events only. -/
def shortEventsCluster : Clientset :=
  ⟨fun _ => .ok [], fun _ => .ok [⟨"t0", "m0"⟩, ⟨"t1", "m1"⟩], fun _ => .ok []⟩

/-- A cluster whose event list request fails. -/
def eventsFailCluster : Clientset :=
  ⟨fun _ => .ok sampleNodes, fun _ => .error "events: connection refused", fun _ => .ok samplePods⟩

/-- A cluster with one pod whose container was restarted exactly once. -/
def restartedOnceCluster : Clientset :=
  ⟨fun _ => .ok [], fun _ => .ok [], fun _ => .ok [⟨"web", [⟨true, 1⟩]⟩]⟩

/-- A cluster whose pod `web` changes between the third and the fourth request of the
process: not ready and never restarted at first, then ready after three restarts. -/
def movingCluster : Clientset :=
  ⟨fun _ => .ok [], fun _ => .ok (sampleEvents.drop 2),
   fun n => if n = 2 then .ok [⟨"web", [⟨false, 0⟩]⟩] else .ok [⟨"web", [⟨true, 3⟩]⟩]⟩

/-- A cluster whose node list request fails. -/
def nodesFailCluster : Clientset :=
  ⟨fun _ => .error "nodes: unauthorized", fun _ => .ok sampleEvents, fun _ => .ok samplePods⟩

/-- A cluster whose pod list requests fail. -/
def podsFailCluster : Clientset :=
  ⟨fun _ => .ok sampleNodes, fun _ => .ok sampleEvents, fun _ => .error "pods: timeout"⟩

/-- A cluster that answers the first pod list request of the process (its third request)
and fails every other pod list request. -/
def secondPodsFailCluster : Clientset :=
  ⟨fun _ => .ok sampleNodes, fun _ => .ok sampleEvents,
   fun n => if n = 2 then .ok samplePods else .error "pods: timeout"⟩

/-! ## Loops as list functions -/

theorem foldl_print {α : Type} (step : Proc → α → Proc) (g : α → List Line)
    (h : ∀ q x, step q x = ⟨q.stdout ++ g x, q.requests⟩) (items : List α) (p : Proc) :
    items.foldl step p = ⟨p.stdout ++ items.flatMap g, p.requests⟩ := by
  induction items generalizing p with
  | nil => simp
  | cons x xs ih => simp [List.foldl_cons, ih, h, List.append_assoc]

theorem foldl_count (conditions : List NodeCondition) (n : Nat) :
    conditions.foldl (fun notReadyCount condition =>
      if condition.type = "Ready" then
        if condition.status ≠ "True" then notReadyCount + 1 else notReadyCount
      else notReadyCount) n
      = n + conditions.countP (fun c => decide (c.type = "Ready" ∧ c.status ≠ "True")) := by
  induction conditions generalizing n with
  | nil => simp
  | cons c cs ih =>
    rw [List.foldl_cons, ih, List.countP_cons]
    by_cases h1 : c.type = "Ready" <;> by_cases h2 : c.status = "True" <;> simp [h1, h2]; omega

theorem countNotReady_eq (node : Node) : countNotReady node.conditions = readyTally node := by
  unfold countNotReady readyTally
  rw [foldl_count]; simp

theorem printNotReadyNodes_eq (clientset : Clientset) (p : Proc) :
    printNotReadyNodes clientset p =
      match clientset.nodes p.requests.length with
      | .error err => (.panicked (.err err), ⟨p.stdout, p.requests ++ [.nodes]⟩)
      | .ok items =>
        (.returned, ⟨p.stdout ++ items.flatMap NodeReadiness, p.requests ++ [.nodes]⟩) := by
  unfold printNotReadyNodes
  cases clientset.nodes p.requests.length with
  | error err => rfl
  | ok items =>
    simp only
    rw [foldl_print _ NodeReadiness]
    · rfl
    · intro q node
      simp only [countNotReady_eq, NodeReadiness, Proc.print]
      split <;> simp

theorem printLastFewEvents_eq (clientset : Clientset) (p : Proc) :
    printLastFewEvents clientset p =
      match clientset.events p.requests.length with
      | .error err => (.panicked (.err err), ⟨p.stdout, p.requests ++ [.events]⟩)
      | .ok items =>
        if items.length < 5 then
          (.panicked (.sliceBounds ((items.length : Int) - 5)),
            ⟨p.stdout ++ [.eventsHeader], p.requests ++ [.events]⟩)
        else (.returned, ⟨p.stdout ++ RecentEvents items, p.requests ++ [.events]⟩) := by
  unfold printLastFewEvents
  cases clientset.events p.requests.length with
  | error err => rfl
  | ok items =>
    simp only
    by_cases hL : items.length < 5
    · have hs : sliceFrom items ((items.length : Int) - 5)
          = .error (.sliceBounds ((items.length : Int) - 5)) := by
        unfold sliceFrom
        rw [if_pos]; left; omega
      rw [hs, if_pos hL]; rfl
    · have hs : sliceFrom items ((items.length : Int) - 5)
          = .ok (items.drop (items.length - 5)) := by
        unfold sliceFrom
        rw [if_neg (by omega)]
        congr 2; omega
      rw [hs, if_neg hL]
      simp only
      rw [foldl_print _ (fun e => [eventLine e])]
      · have hm : ∀ l : List Event, l.flatMap (fun e => [eventLine e]) = l.map eventLine := by
          intro l; induction l with
          | nil => rfl
          | cons a l ih => simp [List.flatMap_cons, ih]
        rw [hm]
        simp [RecentEvents, Proc.print, Proc.request]
      · intro q e; rfl

theorem printRestatedMorethanOncePods_eq (clientset : Clientset) (p : Proc) :
    printRestatedMorethanOncePods clientset p =
      match clientset.pods p.requests.length with
      | .error err => (.panicked (.err err), ⟨p.stdout, p.requests ++ [.pods]⟩)
      | .ok items =>
        (.returned, ⟨p.stdout ++ items.flatMap PodContainerRestarts, p.requests ++ [.pods]⟩) := by
  unfold printRestatedMorethanOncePods
  cases clientset.pods p.requests.length with
  | error err => rfl
  | ok items =>
    simp only
    rw [foldl_print _ PodContainerRestarts]
    · rfl
    · intro q pod
      rw [foldl_print _ (fun c : ContainerStatus =>
        if 0 < c.restartCount then [Line.podRestarted pod.name c.restartCount] else [])]
      · rfl
      · intro r c
        simp only [Proc.print, gt_iff_lt]
        split <;> simp

theorem printPodsAreNotReady_eq (clientset : Clientset) (p : Proc) :
    printPodsAreNotReady clientset p =
      match clientset.pods p.requests.length with
      | .error err => (.panicked (.err err), ⟨p.stdout, p.requests ++ [.pods]⟩)
      | .ok items =>
        (.returned, ⟨p.stdout ++ items.flatMap PodContainerReadiness, p.requests ++ [.pods]⟩) := by
  unfold printPodsAreNotReady
  cases clientset.pods p.requests.length with
  | error err => rfl
  | ok items =>
    simp only
    rw [foldl_print _ PodContainerReadiness]
    · rfl
    · intro q pod
      rw [foldl_print _ (fun c : ContainerStatus =>
        if c.ready = false then [Line.podNotReady pod.name c.restartCount] else [])]
      · rfl
      · intro r c
        cases hc : c.ready <;> simp [Proc.print]

theorem flatMap_ite {α β : Type} (c : α → Bool) (f : α → β) (l : List α) :
    l.flatMap (fun x => if c x = true then [f x] else []) = (l.filter c).map f := by
  induction l with
  | nil => rfl
  | cons a l ih =>
    rw [List.flatMap_cons, ih]
    cases h : c a <;> simp [h]

theorem flatMap_containerStatusesOf (g : Pod → ContainerStatus → List Line) (pods : List Pod) :
    pods.flatMap (fun pod => pod.containerStatuses.flatMap (g pod))
      = (containerStatusesOf pods).flatMap (fun pc => g pc.1 pc.2) := by
  unfold containerStatusesOf
  induction pods with
  | nil => rfl
  | cons pod pods ih =>
    rw [List.flatMap_cons, List.flatMap_cons, List.flatMap_append, ← ih]
    congr 1
    generalize pod.containerStatuses = l
    induction l with
    | nil => rfl
    | cons c l ihl => simp [List.flatMap_cons, ihl]

/-- The whole of `main`, by the answers of the cluster to the four requests. -/
theorem main_eq (clientset : Clientset) :
    main clientset =
      match clientset.nodes 0 with
      | .error e => (.panicked (.err e), ⟨[], [.nodes]⟩)
      | .ok nodes =>
        match clientset.events 1 with
        | .error e => (.panicked (.err e), ⟨nodes.flatMap NodeReadiness, [.nodes, .events]⟩)
        | .ok events =>
          if events.length < 5 then
            (.panicked (.sliceBounds ((events.length : Int) - 5)),
              ⟨nodes.flatMap NodeReadiness ++ [.eventsHeader], [.nodes, .events]⟩)
          else
            match clientset.pods 2 with
            | .error e =>
              (.panicked (.err e),
                ⟨nodes.flatMap NodeReadiness ++ RecentEvents events, [.nodes, .events, .pods]⟩)
            | .ok pods₁ =>
              match clientset.pods 3 with
              | .error e =>
                (.panicked (.err e),
                  ⟨nodes.flatMap NodeReadiness ++ RecentEvents events
                      ++ pods₁.flatMap PodContainerReadiness,
                    [.nodes, .events, .pods, .pods]⟩)
              | .ok pods₂ =>
                (.returned,
                  ⟨nodes.flatMap NodeReadiness ++ RecentEvents events
                      ++ pods₁.flatMap PodContainerReadiness
                      ++ pods₂.flatMap PodContainerRestarts,
                    [.nodes, .events, .pods, .pods]⟩) := by
  unfold main andThen
  rw [printNotReadyNodes_eq]
  simp only [Proc.start, List.length_nil, List.nil_append]
  cases clientset.nodes 0 with
  | error e => rfl
  | ok nodes =>
    simp only
    rw [printLastFewEvents_eq]
    simp only [List.length_singleton, List.singleton_append]
    cases clientset.events 1 with
    | error e => rfl
    | ok events =>
      simp only
      by_cases hL : events.length < 5
      · simp only [if_pos hL]
      · simp only [if_neg hL]
        rw [printPodsAreNotReady_eq]
        simp only [List.length_cons, List.length_nil]
        cases clientset.pods 2 with
        | error e => rfl
        | ok pods₁ =>
          simp only
          rw [printRestatedMorethanOncePods_eq]
          simp only [List.length_cons, List.length_nil, List.length_append]
          cases clientset.pods 3 with
          | error e => rfl
          | ok pods₂ => rfl

/-! ## The event report -/

/-- On every event list with fewer than five entries `printLastFewEvents` prints the header
and then panics in the slice expression, whose lower bound is negative. -/
theorem printLastFewEvents_short (clientset : Clientset) (p : Proc) (items : List Event)
    (h : clientset.events p.requests.length = .ok items) (hL : items.length < 5) :
    printLastFewEvents clientset p =
      (.panicked (.sliceBounds ((items.length : Int) - 5)),
        ⟨p.stdout ++ [.eventsHeader], p.requests ++ [.events]⟩) := by
  rw [printLastFewEvents_eq, h]
  simp only [if_pos hL]

/-- C1, evaluated on a list of two events: `printLastFewEvents` prints the header only and
panics with the slice bound `2 - 5 = -3`; neither event is printed. -/
theorem printLastFewEvents_two_events_panics :
    printLastFewEvents shortEventsCluster Proc.start =
      (.panicked (.sliceBounds (-3)), ⟨[.eventsHeader], [.events]⟩) := by
  decide

/-- C4: on an event list of length at least five `printLastFewEvents` returns, having
printed the header and then exactly five event lines; the line at position `i` is the one
of the entry at index `L - 5 + i` of the list. -/
theorem printLastFewEvents_last_five (clientset : Clientset) (p : Proc) (items : List Event)
    (h : clientset.events p.requests.length = .ok items) (hL : 5 ≤ items.length) :
    ∃ lines : List Line,
      printLastFewEvents clientset p =
        (.returned, ⟨p.stdout ++ Line.eventsHeader :: lines, p.requests ++ [.events]⟩) ∧
      lines.length = 5 ∧
      ∀ i, i < 5 → ∃ e, items[items.length - 5 + i]? = some e ∧
        lines[i]? = some (Line.event e.firstTimestamp e.message) := by
  refine ⟨(items.drop (items.length - 5)).map eventLine, ?_, ?_, ?_⟩
  · rw [printLastFewEvents_eq, h]
    simp only [if_neg (Nat.not_lt.mpr hL)]
    rfl
  · rw [List.length_map, List.length_drop]; omega
  · intro i hi
    have hlt : items.length - 5 + i < items.length := by omega
    refine ⟨items[items.length - 5 + i], List.getElem?_eq_getElem hlt, ?_⟩
    rw [List.getElem?_map, List.getElem?_drop, List.getElem?_eq_getElem hlt]
    rfl

/-- C4 at the cluster with seven events: the lines after the header are those of the
entries at indices 2 to 6. -/
theorem printLastFewEvents_last_five_witness :
    sampleCluster.events Proc.start.requests.length = .ok sampleEvents ∧
    5 ≤ sampleEvents.length ∧
    ∃ lines : List Line,
      printLastFewEvents sampleCluster Proc.start =
        (.returned, ⟨Proc.start.stdout ++ Line.eventsHeader :: lines,
          Proc.start.requests ++ [.events]⟩) ∧
      lines.length = 5 ∧
      ∀ i, i < 5 → ∃ e, sampleEvents[sampleEvents.length - 5 + i]? = some e ∧
        lines[i]? = some (Line.event e.firstTimestamp e.message) :=
  ⟨rfl, by decide,
    printLastFewEvents_last_five sampleCluster Proc.start sampleEvents rfl (by decide)⟩

/-! ## The node report -/

/-- C2: `printNotReadyNodes` returns, and what it prints is, node by node in list order,
one line for a node that has a condition of type "Ready" with a status other than "True",
carrying the number of such conditions, and no line for any other node. -/
theorem printNotReadyNodes_reports (clientset : Clientset) (p : Proc) (items : List Node)
    (h : clientset.nodes p.requests.length = .ok items) :
    (printNotReadyNodes clientset p).1 = .returned ∧
    (printNotReadyNodes clientset p).2.stdout = p.stdout ++ items.flatMap (fun node =>
      if ∃ c ∈ node.conditions, c.type = "Ready" ∧ c.status ≠ "True" then
        [Line.nodeNotReady node.name
          (node.conditions.filter
            (fun c => decide (c.type = "Ready" ∧ c.status ≠ "True"))).length]
      else []) := by
  rw [printNotReadyNodes_eq, h]
  refine ⟨rfl, ?_⟩
  simp only
  congr 1
  apply List.flatMap_congr
  intro node _
  unfold NodeReadiness readyTally
  rw [List.countP_eq_length_filter]
  by_cases hex : ∃ c ∈ node.conditions, c.type = "Ready" ∧ c.status ≠ "True"
  · rw [if_pos hex, if_pos]
    rw [← List.countP_eq_length_filter, List.countP_pos_iff]
    obtain ⟨c, hc, hp⟩ := hex
    exact ⟨c, hc, by simpa using hp⟩
  · rw [if_neg hex, if_neg]
    rw [← List.countP_eq_length_filter, List.countP_pos_iff]
    rintro ⟨c, hc, hp⟩
    exact hex ⟨c, hc, by simpa using hp⟩

/-- C2 at the sample cluster: `node-a` is printed with count 1, `node-d` with count 2,
`node-b` (ready) and `node-c` (no condition) are not printed. -/
theorem printNotReadyNodes_reports_witness :
    sampleCluster.nodes Proc.start.requests.length = .ok sampleNodes ∧
    (printNotReadyNodes sampleCluster Proc.start).1 = .returned ∧
    (printNotReadyNodes sampleCluster Proc.start).2.stdout =
      Proc.start.stdout ++ sampleNodes.flatMap (fun node =>
        if ∃ c ∈ node.conditions, c.type = "Ready" ∧ c.status ≠ "True" then
          [Line.nodeNotReady node.name
            (node.conditions.filter
              (fun c => decide (c.type = "Ready" ∧ c.status ≠ "True"))).length]
        else []) :=
  ⟨rfl, printNotReadyNodes_reports sampleCluster Proc.start sampleNodes rfl⟩

/-! ## The pod reports -/

/-- C5: `printRestatedMorethanOncePods` returns, and what it prints is, container status by
container status, one line for a status whose restart count is greater than 0, carrying the
name of its pod and that restart count, and no line for any other status. -/
theorem printRestatedMorethanOncePods_reports (clientset : Clientset) (p : Proc)
    (items : List Pod) (h : clientset.pods p.requests.length = .ok items) :
    (printRestatedMorethanOncePods clientset p).1 = .returned ∧
    (printRestatedMorethanOncePods clientset p).2.stdout = p.stdout ++
      items.flatMap (fun pod => pod.containerStatuses.flatMap (fun c =>
        if c.restartCount > 0 then [Line.podRestarted pod.name c.restartCount] else [])) := by
  rw [printRestatedMorethanOncePods_eq, h]
  exact ⟨rfl, rfl⟩

/-- C5 at the sample cluster. -/
theorem printRestatedMorethanOncePods_reports_witness :
    sampleCluster.pods Proc.start.requests.length = .ok samplePods ∧
    (printRestatedMorethanOncePods sampleCluster Proc.start).1 = .returned ∧
    (printRestatedMorethanOncePods sampleCluster Proc.start).2.stdout = Proc.start.stdout ++
      samplePods.flatMap (fun pod => pod.containerStatuses.flatMap (fun c =>
        if c.restartCount > 0 then [Line.podRestarted pod.name c.restartCount] else [])) :=
  ⟨rfl, printRestatedMorethanOncePods_reports sampleCluster Proc.start samplePods rfl⟩

/-- C6: `printPodsAreNotReady` returns, and what it prints is, container status by container
status, one line for a status whose ready flag is false, carrying the name of its pod and
the restart count of that status, and no line for a status whose ready flag is true. The
number of lines it prints is the number of not-ready container statuses of all pods. -/
theorem printPodsAreNotReady_reports (clientset : Clientset) (p : Proc)
    (items : List Pod) (h : clientset.pods p.requests.length = .ok items) :
    (printPodsAreNotReady clientset p).1 = .returned ∧
    (printPodsAreNotReady clientset p).2.stdout = p.stdout ++
      items.flatMap (fun pod => pod.containerStatuses.flatMap (fun c =>
        if c.ready = false then [Line.podNotReady pod.name c.restartCount] else [])) ∧
    (printPodsAreNotReady clientset p).2.stdout.length = p.stdout.length +
      (items.map (fun pod => pod.containerStatuses.countP (fun c => !c.ready))).sum := by
  rw [printPodsAreNotReady_eq, h]
  refine ⟨rfl, rfl, ?_⟩
  simp only [List.length_append, List.length_flatMap]
  congr 2
  apply List.map_congr_left
  intro pod _
  simp only [Function.comp_apply]
  unfold PodContainerReadiness
  generalize pod.containerStatuses = l
  induction l with
  | nil => rfl
  | cons c l ih =>
    rw [List.flatMap_cons, List.length_append, ih, List.countP_cons]
    cases hc : c.ready <;> simp
    omega

/-- C6 at the sample cluster. -/
theorem printPodsAreNotReady_reports_witness :
    sampleCluster.pods Proc.start.requests.length = .ok samplePods ∧
    (printPodsAreNotReady sampleCluster Proc.start).1 = .returned ∧
    (printPodsAreNotReady sampleCluster Proc.start).2.stdout = Proc.start.stdout ++
      samplePods.flatMap (fun pod => pod.containerStatuses.flatMap (fun c =>
        if c.ready = false then [Line.podNotReady pod.name c.restartCount] else [])) ∧
    (printPodsAreNotReady sampleCluster Proc.start).2.stdout.length = Proc.start.stdout.length +
      (samplePods.map (fun pod => pod.containerStatuses.countP (fun c => !c.ready))).sum :=
  ⟨rfl, printPodsAreNotReady_reports sampleCluster Proc.start samplePods rfl⟩

/-- C7, evaluated on one pod whose only container was restarted exactly once:
`printRestatedMorethanOncePods` prints the line of that container. -/
theorem printRestatedMorethanOncePods_prints_single_restart :
    printRestatedMorethanOncePods restartedOnceCluster Proc.start =
      (.returned, ⟨[.podRestarted "web" 1], [.pods]⟩) := by
  decide

/-- C8: on two pod lists that differ at most in the ready flags of their container
statuses `printRestatedMorethanOncePods` ends in the same way with the same output, and a
container status that is ready and has a restart count greater than 0 has its line in the
output. -/
theorem printRestatedMorethanOncePods_ignores_ready (clientset₁ clientset₂ : Clientset)
    (p : Proc) (pods₁ pods₂ : List Pod)
    (h₁ : clientset₁.pods p.requests.length = .ok pods₁)
    (h₂ : clientset₂.pods p.requests.length = .ok pods₂)
    (hsame : pods₁.map Pod.eraseReady = pods₂.map Pod.eraseReady) :
    printRestatedMorethanOncePods clientset₁ p = printRestatedMorethanOncePods clientset₂ p ∧
    ∀ pod ∈ pods₁, ∀ c ∈ pod.containerStatuses, c.ready = true → c.restartCount > 0 →
      Line.podRestarted pod.name c.restartCount ∈
        (printRestatedMorethanOncePods clientset₁ p).2.stdout := by
  have herase : ∀ pod : Pod, PodContainerRestarts pod = PodContainerRestarts pod.eraseReady := by
    intro pod
    unfold PodContainerRestarts Pod.eraseReady
    simp only
    generalize pod.containerStatuses = l
    induction l with
    | nil => rfl
    | cons c l ih => simp only [List.map_cons, List.flatMap_cons, ih]
  have hflat : ∀ pods : List Pod,
      pods.flatMap PodContainerRestarts = (pods.map Pod.eraseReady).flatMap PodContainerRestarts := by
    intro pods
    induction pods with
    | nil => rfl
    | cons pod pods ih => rw [List.map_cons, List.flatMap_cons, List.flatMap_cons, ih, ← herase]
  rw [printRestatedMorethanOncePods_eq, printRestatedMorethanOncePods_eq, h₁, h₂]
  refine ⟨?_, ?_⟩
  · simp only
    rw [hflat pods₁, hflat pods₂, hsame]
  · intro pod hpod c hc _ hpos
    simp only
    apply List.mem_append_right
    rw [List.mem_flatMap]
    refine ⟨pod, hpod, ?_⟩
    unfold PodContainerRestarts
    rw [List.mem_flatMap]
    exact ⟨c, hc, by simp [gt_iff_lt.mp hpos]⟩

/-- C8 at the sample pods and the same pods with every ready flag flipped. -/
theorem printRestatedMorethanOncePods_ignores_ready_witness :
    sampleCluster.pods Proc.start.requests.length = .ok samplePods ∧
    flippedCluster.pods Proc.start.requests.length = .ok samplePodsFlipped ∧
    samplePods.map Pod.eraseReady = samplePodsFlipped.map Pod.eraseReady ∧
    printRestatedMorethanOncePods sampleCluster Proc.start =
      printRestatedMorethanOncePods flippedCluster Proc.start ∧
    ∀ pod ∈ samplePods, ∀ c ∈ pod.containerStatuses, c.ready = true → c.restartCount > 0 →
      Line.podRestarted pod.name c.restartCount ∈
        (printRestatedMorethanOncePods sampleCluster Proc.start).2.stdout :=
  ⟨rfl, rfl, by decide,
    printRestatedMorethanOncePods_ignores_ready sampleCluster flippedCluster Proc.start
      samplePods samplePodsFlipped rfl rfl (by decide)⟩

/-- C9: each report is the order-preserving filter of its flattened input, formatted entry
by entry: the nodes in list order for `printNotReadyNodes`, the container statuses in pod
order and then sequence order for `printPodsAreNotReady` and
`printRestatedMorethanOncePods`. -/
theorem reports_preserve_encounter_order (clientset : Clientset) (p : Proc)
    (nodes : List Node) (pods : List Pod)
    (hn : clientset.nodes p.requests.length = .ok nodes)
    (hp : clientset.pods p.requests.length = .ok pods) :
    (printNotReadyNodes clientset p).2.stdout = p.stdout ++
      (nodes.filter (fun node => decide (countNotReady node.conditions > 0))).map
        (fun node => Line.nodeNotReady node.name (countNotReady node.conditions)) ∧
    (printPodsAreNotReady clientset p).2.stdout = p.stdout ++
      ((containerStatusesOf pods).filter (fun pc => pc.2.ready != true)).map
        (fun pc => Line.podNotReady pc.1.name pc.2.restartCount) ∧
    (printRestatedMorethanOncePods clientset p).2.stdout = p.stdout ++
      ((containerStatusesOf pods).filter (fun pc => decide (pc.2.restartCount > 0))).map
        (fun pc => Line.podRestarted pc.1.name pc.2.restartCount) := by
  rw [printNotReadyNodes_eq, printPodsAreNotReady_eq, printRestatedMorethanOncePods_eq, hn, hp]
  refine ⟨?_, ?_, ?_⟩
  · simp only
    rw [← flatMap_ite]
    congr 1
    apply List.flatMap_congr
    intro node _
    simp [NodeReadiness, countNotReady_eq]
  · simp only
    rw [← flatMap_ite, ← flatMap_containerStatusesOf (fun pod c =>
      if (c.ready != true) = true then [Line.podNotReady pod.name c.restartCount] else [])]
    congr 1
    apply List.flatMap_congr
    intro pod _
    unfold PodContainerReadiness
    apply List.flatMap_congr
    intro c _
    cases c.ready <;> rfl
  · simp only
    rw [← flatMap_ite, ← flatMap_containerStatusesOf (fun pod c =>
      if decide (c.restartCount > 0) = true then [Line.podRestarted pod.name c.restartCount]
      else [])]
    congr 1
    apply List.flatMap_congr
    intro pod _
    unfold PodContainerRestarts
    apply List.flatMap_congr
    intro c _
    simp

/-- C9 at the sample cluster. -/
theorem reports_preserve_encounter_order_witness :
    sampleCluster.nodes Proc.start.requests.length = .ok sampleNodes ∧
    sampleCluster.pods Proc.start.requests.length = .ok samplePods ∧
    (printNotReadyNodes sampleCluster Proc.start).2.stdout = Proc.start.stdout ++
      (sampleNodes.filter (fun node => decide (countNotReady node.conditions > 0))).map
        (fun node => Line.nodeNotReady node.name (countNotReady node.conditions)) ∧
    (printPodsAreNotReady sampleCluster Proc.start).2.stdout = Proc.start.stdout ++
      ((containerStatusesOf samplePods).filter (fun pc => pc.2.ready != true)).map
        (fun pc => Line.podNotReady pc.1.name pc.2.restartCount) ∧
    (printRestatedMorethanOncePods sampleCluster Proc.start).2.stdout = Proc.start.stdout ++
      ((containerStatusesOf samplePods).filter (fun pc => decide (pc.2.restartCount > 0))).map
        (fun pc => Line.podRestarted pc.1.name pc.2.restartCount) :=
  ⟨rfl, rfl,
    reports_preserve_encounter_order sampleCluster Proc.start sampleNodes samplePods rfl rfl⟩

/-! ## The run of `main` -/

/-- C3, refuted at a cluster whose node request succeeds and whose event request fails:
the run panics with the error of the event request after it has printed the two lines of
the node report. -/
theorem main_prints_before_failed_request :
    eventsFailCluster.events 1 = .error "events: connection refused" ∧
    main eventsFailCluster =
      (.panicked (.err "events: connection refused"),
        ⟨[.nodeNotReady "node-a" 1, .nodeNotReady "node-d" 2], [.nodes, .events]⟩) ∧
    (main eventsFailCluster).2.stdout ≠ [] :=
  ⟨rfl, by decide, by decide⟩

/-- Conversely, a run of `main` that panics with an error `e` does so because a list request
answered `e`: that request is the first one to fail, and the output is exactly the reports
of the requests before it. -/
theorem main_panic_err_inv (clientset : Clientset) (e : String)
    (h : (main clientset).1 = .panicked (.err e)) :
    (clientset.nodes 0 = .error e ∧ (main clientset).2.stdout = []) ∨
    (∃ nodes, clientset.nodes 0 = .ok nodes ∧ clientset.events 1 = .error e ∧
      (main clientset).2.stdout = nodes.flatMap NodeReadiness) ∨
    (∃ nodes events, clientset.nodes 0 = .ok nodes ∧ clientset.events 1 = .ok events ∧
      5 ≤ events.length ∧ clientset.pods 2 = .error e ∧
      (main clientset).2.stdout = nodes.flatMap NodeReadiness ++ RecentEvents events) ∨
    (∃ nodes events pods, clientset.nodes 0 = .ok nodes ∧ clientset.events 1 = .ok events ∧
      5 ≤ events.length ∧ clientset.pods 2 = .ok pods ∧ clientset.pods 3 = .error e ∧
      (main clientset).2.stdout = nodes.flatMap NodeReadiness ++ RecentEvents events
        ++ pods.flatMap PodContainerReadiness) := by
  rw [main_eq] at h ⊢
  cases hn : clientset.nodes 0 with
  | error e₀ =>
    rw [hn] at h
    simp only [Outcome.panicked.injEq, Panic.err.injEq] at h
    left; exact ⟨by rw [h], rfl⟩
  | ok nodes =>
    rw [hn] at h
    simp only at h ⊢
    right
    cases he : clientset.events 1 with
    | error e₁ =>
      rw [he] at h
      simp only [Outcome.panicked.injEq, Panic.err.injEq] at h
      left; exact ⟨nodes, rfl, by rw [h], rfl⟩
    | ok events =>
      rw [he] at h
      simp only at h ⊢
      right
      by_cases hL : events.length < 5
      · simp [if_pos hL] at h
      · rw [if_neg hL] at h ⊢
        cases hp : clientset.pods 2 with
        | error e₂ =>
          rw [hp] at h
          simp only [Outcome.panicked.injEq, Panic.err.injEq] at h
          left; exact ⟨nodes, events, rfl, rfl, Nat.le_of_not_lt hL, by rw [h], rfl⟩
        | ok pods =>
          rw [hp] at h
          simp only at h ⊢
          right
          cases hq : clientset.pods 3 with
          | error e₃ =>
            rw [hq] at h
            simp only [Outcome.panicked.injEq, Panic.err.injEq] at h
            exact ⟨nodes, events, pods, rfl, rfl, Nat.le_of_not_lt hL, rfl, by rw [h], rfl⟩
          | ok pods₂ =>
            rw [hq] at h
            simp at h

/-- C3 as amended: a list request that fails during a run of `main` makes the run panic with
the error of that request, and at that point the output is exactly the reports of the
requests that succeeded before it, in the order of the run; no line of the report of the
failed request or of a later report is printed. The four requests of a run, in order:
the node request (nothing printed before it), the event request (the node report is
printed before it), the pod request of `printPodsAreNotReady` (made once the event report
is printed, which takes at least five events; node and event reports are printed before
it) and the pod request of `printRestatedMorethanOncePods` (node, event and readiness
reports are printed before it). -/
theorem main_panics_at_failed_request (clientset : Clientset) (e : String) :
    (clientset.nodes 0 = .error e →
      main clientset = (.panicked (.err e), ⟨[], [.nodes]⟩)) ∧
    (∀ nodes, clientset.nodes 0 = .ok nodes → clientset.events 1 = .error e →
      main clientset =
        (.panicked (.err e), ⟨nodes.flatMap NodeReadiness, [.nodes, .events]⟩)) ∧
    (∀ nodes events, clientset.nodes 0 = .ok nodes → clientset.events 1 = .ok events →
      5 ≤ events.length → clientset.pods 2 = .error e →
      main clientset =
        (.panicked (.err e),
          ⟨nodes.flatMap NodeReadiness ++ RecentEvents events, [.nodes, .events, .pods]⟩)) ∧
    (∀ nodes events pods, clientset.nodes 0 = .ok nodes → clientset.events 1 = .ok events →
      5 ≤ events.length → clientset.pods 2 = .ok pods → clientset.pods 3 = .error e →
      main clientset =
        (.panicked (.err e),
          ⟨nodes.flatMap NodeReadiness ++ RecentEvents events
              ++ pods.flatMap PodContainerReadiness,
            [.nodes, .events, .pods, .pods]⟩)) := by
  refine ⟨?_, ?_, ?_, ?_⟩
  · intro hn
    rw [main_eq, hn]
  · intro nodes hn he
    rw [main_eq, hn]
    simp only
    rw [he]
  · intro nodes events hn he hL hp
    rw [main_eq, hn]
    simp only
    rw [he]
    simp only
    rw [if_neg (Nat.not_lt.mpr hL), hp]
  · intro nodes events pods hn he hL hp hq
    rw [main_eq, hn]
    simp only
    rw [he]
    simp only
    rw [if_neg (Nat.not_lt.mpr hL), hp]
    simp only
    rw [hq]

/-- C3 as amended, at four clusters, one for each request of the run that can fail. -/
theorem main_panics_at_failed_request_witness :
    (nodesFailCluster.nodes 0 = .error "nodes: unauthorized" ∧
      main nodesFailCluster = (.panicked (.err "nodes: unauthorized"), ⟨[], [.nodes]⟩)) ∧
    (eventsFailCluster.nodes 0 = .ok sampleNodes ∧
      eventsFailCluster.events 1 = .error "events: connection refused" ∧
      main eventsFailCluster =
        (.panicked (.err "events: connection refused"),
          ⟨sampleNodes.flatMap NodeReadiness, [.nodes, .events]⟩)) ∧
    (podsFailCluster.nodes 0 = .ok sampleNodes ∧ podsFailCluster.events 1 = .ok sampleEvents ∧
      5 ≤ sampleEvents.length ∧ podsFailCluster.pods 2 = .error "pods: timeout" ∧
      main podsFailCluster =
        (.panicked (.err "pods: timeout"),
          ⟨sampleNodes.flatMap NodeReadiness ++ RecentEvents sampleEvents,
            [.nodes, .events, .pods]⟩)) ∧
    (secondPodsFailCluster.nodes 0 = .ok sampleNodes ∧
      secondPodsFailCluster.events 1 = .ok sampleEvents ∧ 5 ≤ sampleEvents.length ∧
      secondPodsFailCluster.pods 2 = .ok samplePods ∧
      secondPodsFailCluster.pods 3 = .error "pods: timeout" ∧
      main secondPodsFailCluster =
        (.panicked (.err "pods: timeout"),
          ⟨sampleNodes.flatMap NodeReadiness ++ RecentEvents sampleEvents
              ++ samplePods.flatMap PodContainerReadiness,
            [.nodes, .events, .pods, .pods]⟩)) :=
  ⟨⟨rfl, (main_panics_at_failed_request nodesFailCluster "nodes: unauthorized").1 rfl⟩,
    ⟨rfl, rfl,
      (main_panics_at_failed_request eventsFailCluster "events: connection refused").2.1
        sampleNodes rfl rfl⟩,
    ⟨rfl, rfl, by decide, rfl,
      (main_panics_at_failed_request podsFailCluster "pods: timeout").2.2.1
        sampleNodes sampleEvents rfl rfl (by decide) rfl⟩,
    ⟨rfl, rfl, by decide, rfl, rfl,
      (main_panics_at_failed_request secondPodsFailCluster "pods: timeout").2.2.2
        sampleNodes sampleEvents samplePods rfl rfl (by decide) rfl rfl⟩⟩

/-- C10, refuted at a cluster whose pod `web` changes between two requests: the run issues
two pod requests, and it reports `web` both as not ready with 0 restarts (from the first
answer) and as restarted 3 times (from the second answer), which no single pod list
yields. -/
theorem main_fetches_pods_twice :
    (main movingCluster).1 = .returned ∧
    (main movingCluster).2.requests = [.nodes, .events, .pods, .pods] ∧
    (main movingCluster).2.requests.count Resource.pods = 2 ∧
    movingCluster.pods 2 ≠ movingCluster.pods 3 ∧
    (main movingCluster).2.stdout =
      [.eventsHeader, .event "t2" "m2", .event "t3" "m3", .event "t4" "m4", .event "t5" "m5",
        .event "t6" "m6", .podNotReady "web" 0, .podRestarted "web" 3] :=
  ⟨by decide, by decide, by decide, fun h => absurd (Except.ok.inj h) (by decide), by decide⟩

/-- C10 as amended: a run of `main` that returns has issued exactly four list requests, in
the order nodes, events, pods, pods: the node list and the event list are fetched once and
the pod list twice. The readiness report is computed from the answer to the first pod
request and the restart report from the answer to the second. -/
theorem main_requests_of_completed_run (clientset : Clientset)
    (h : (main clientset).1 = .returned) :
    (main clientset).2.requests = [.nodes, .events, .pods, .pods] ∧
    ∃ nodes events pods₁ pods₂,
      clientset.nodes 0 = .ok nodes ∧ clientset.events 1 = .ok events ∧
      clientset.pods 2 = .ok pods₁ ∧ clientset.pods 3 = .ok pods₂ ∧
      (main clientset).2.stdout = nodes.flatMap NodeReadiness ++ RecentEvents events
        ++ pods₁.flatMap PodContainerReadiness ++ pods₂.flatMap PodContainerRestarts := by
  rw [main_eq] at h ⊢
  cases hn : clientset.nodes 0 with
  | error e₀ => rw [hn] at h; simp at h
  | ok nodes =>
    rw [hn] at h
    simp only at h ⊢
    cases he : clientset.events 1 with
    | error e₁ => rw [he] at h; simp at h
    | ok events =>
      rw [he] at h
      simp only at h ⊢
      by_cases hL : events.length < 5
      · simp [if_pos hL] at h
      · rw [if_neg hL] at h ⊢
        cases hp : clientset.pods 2 with
        | error e₂ => rw [hp] at h; simp at h
        | ok pods₁ =>
          rw [hp] at h
          simp only at h ⊢
          cases hq : clientset.pods 3 with
          | error e₃ => rw [hq] at h; simp at h
          | ok pods₂ => exact ⟨rfl, nodes, events, pods₁, pods₂, rfl, rfl, rfl, rfl, rfl⟩

/-- C10 as amended, at the cluster whose pod changes between the two pod requests. -/
theorem main_requests_of_completed_run_witness :
    (main movingCluster).1 = .returned ∧
    (main movingCluster).2.requests = [.nodes, .events, .pods, .pods] ∧
    ∃ nodes events pods₁ pods₂,
      movingCluster.nodes 0 = .ok nodes ∧ movingCluster.events 1 = .ok events ∧
      movingCluster.pods 2 = .ok pods₁ ∧ movingCluster.pods 3 = .ok pods₂ ∧
      (main movingCluster).2.stdout = nodes.flatMap NodeReadiness ++ RecentEvents events
        ++ pods₁.flatMap PodContainerReadiness ++ pods₂.flatMap PodContainerRestarts :=
  ⟨by decide, main_requests_of_completed_run movingCluster (by decide)⟩

end GiCoKu
